import Mathlib

/-!
Shallow embedding of `src/app.py` (banking dashboard).

The module-level load (app.py lines 8-14) reads a CSV, drops every record
with any missing cell (`df.dropna()`), and only then coerces the `Date`
column (`pd.to_datetime(..., errors=coerce)`) and derives the `Year` and
`Month` columns.  The single callback `update_graph` (lines 178-265) copies
the frame, optionally filters by year, branches on the view selector, and
styles the resulting figure.  All of that is modelled below as pure
functions over explicit row lists; the module global `df` is threaded
through `update_graph` as explicit state so that frame conditions can be
stated.
-/

namespace BankDash

/-- Month names exactly as produced by pandas `Series.dt.month_name()`. -/
def MONTHS : List String :=
  ["January", "February", "March", "April", "May", "June",
   "July", "August", "September", "October", "November", "December"]

/-- Calendar ordinal (1..12) of a month-name label; 13 for an unknown label. -/
def monthOrd (m : String) : Nat := MONTHS.indexOf m + 1

/-- Month-name label of a calendar ordinal (1..12). -/
def monthName (n : Nat) : String := MONTHS.getD (n - 1) ""

/-- One raw CSV record as handed to the engine by `pd.read_csv`
(app.py line 8); `none` models a missing cell (NaN).  `extra` stands for
the further CSV columns that the engine otherwise ignores — `df.dropna()`
(line 9) still inspects them.  Amounts are modelled over `Int` (the spec
only requires a signed numeric domain). -/
structure RawRow where
  date : Option String
  amount : Option Int
  ttype : Option String
  extra : Option String
deriving DecidableEq

/-- Split a character list on the dash separator. -/
def splitDash : List Char → List (List Char)
  | [] => [[]]
  | c :: rest =>
    match splitDash rest with
    | [] => if c = '-' then [[], []] else [[c]]
    | g :: gs => if c = '-' then [] :: g :: gs else (c :: g) :: gs

/-- Read a nonempty all-digit character list as a number. -/
def digitsToNat? (cs : List Char) : Option Nat :=
  match cs with
  | [] => none
  | _ =>
    cs.foldl
      (fun acc c =>
        match acc with
        | none => none
        | some n => if c.isDigit then some (n * 10 + (c.toNat - 48)) else none)
      (some 0)

/-- `pd.to_datetime(col, errors=coerce)` (app.py line 12) modelled on ISO
`YYYY-MM-DD` strings: a well-formed date yields `(year, month ordinal)`;
any other shape coerces to absent (`NaT`), exactly the coerce semantics. -/
def parseDate (s : String) : Option (Int × Nat) :=
  match splitDash s.toList with
  | [ys, ms, ds] =>
    match digitsToNat? ys, digitsToNat? ms, digitsToNat? ds with
    | some y, some m, some d =>
      if 1 ≤ m ∧ m ≤ 12 ∧ 1 ≤ d ∧ d ≤ 31 then some ((y : Int), m) else none
    | _, _, _ => none
  | _ => none

/-- A row of the loaded base table `df` after the derived-fields pass
(app.py lines 11-14): `date = none` models `NaT`, in which case the derived
`Year` and `Month` cells are NaN. -/
structure Row where
  date : Option (Int × Nat)
  amount : Int
  ttype : String
deriving DecidableEq

/-- The derived `Year` cell of a row: `df[Date].dt.year` (line 13). -/
def rowYear (r : Row) : Option Int := r.date.map Prod.fst

/-- The derived `Month` cell of a row: `df[Date].dt.month_name()` (line 14). -/
def rowMonth (r : Row) : Option String := r.date.map (fun p => monthName p.2)

/-- The predicate `df.dropna()` keeps a record by: every cell present,
including cells of columns the engine otherwise ignores. -/
def rawComplete (r : RawRow) : Bool :=
  r.date.isSome && r.amount.isSome && r.ttype.isSome && r.extra.isSome

/-- Derived-fields pass applied to one surviving record (lines 12-14).
The `getD` defaults are never reached: `loadBase` applies this only to
records that passed `rawComplete`. -/
def loadRow (r : RawRow) : Row :=
  { date := parseDate (r.date.getD ""), amount := r.amount.getD 0,
    ttype := r.ttype.getD "" }

/-- Module-level load, app.py lines 8-14: `df = pd.read_csv(...)`,
`df = df.dropna()` (drops every record with any missing cell, before any
date parsing), then the Date column is coerced and Year/Month derived. -/
def loadBase (raws : List RawRow) : List Row :=
  (raws.filter rawComplete).map loadRow

/-- The process-wide state after startup: the loaded frame plus whether the
CSV had a `Date` column at all (the guard at line 11; when `hasMonth` is
false the derived `Year`/`Month` columns do not exist). -/
structure Table where
  hasMonth : Bool
  rows : List Row
deriving DecidableEq

/-- Colour theme record (app.py lines 19-33). -/
structure Theme where
  background : String
  card : String
  text : String
  header : String
  shadow : String
deriving DecidableEq

/-- app.py lines 19-25. -/
def LIGHT_THEME : Theme :=
  { background := "#f5f7fa", card := "white", text := "#333",
    header := "#0b5394", shadow := "0 4px 12px rgba(0,0,0,0.1)" }

/-- app.py lines 27-33. -/
def DARK_THEME : Theme :=
  { background := "#1e1e2f", card := "#2b2b40", text := "#e0e0e0",
    header := "#1e88e5", shadow := "0 4px 12px rgba(255,255,255,0.1)" }

/-- Data content of the plotly figure built in each branch of
`update_graph`: the histogram keeps the raw category column (the chart
computes counts), the box plot keeps raw `(type, amount)` pairs, the line
chart keeps the aggregated `(month, sum)` points, and `scatterEmpty` is the
`px.scatter` of the early no-data return (line 207). -/
inductive FigContent where
  | histogram (xs : List String) (colored : Bool)
  | box (pairs : List (String × Int))
  | line (points : List (String × Int))
  | scatterEmpty
deriving DecidableEq

/-- The parts of a plotly figure that `update_graph` sets: its data
content, title, template and the layout fields written by
`fig.update_layout` (lines 227-235). -/
structure Figure where
  content : FigContent
  title : String
  template : String
  plotBgcolor : String
  paperBgcolor : String
  fontColor : String
  transitionDuration : Nat
deriving DecidableEq

/-- Category column of a histogram figure. -/
def figXs : FigContent → List String
  | .histogram xs _ => xs
  | _ => []

/-- Raw pair data of a box or line figure. -/
def figPairs : FigContent → List (String × Int)
  | .box ps => ps
  | .line ps => ps
  | _ => []

/-- app.py lines 182-183: `if selected_year: dff = dff[dff["Year"] ==
selected_year]`.  Note the Python truthiness test: both `None` and the
integer `0` are falsy, so a filter value of `0` skips the filter entirely.
The pandas boolean mask keeps row order and never matches a NaN `Year`. -/
def filterYear (rows : List Row) : Option Int → List Row
  | none => rows
  | some y =>
    if y = 0 then rows
    else rows.filter fun r => decide (rowYear r = some y)

/-- Key order of `groupby("Month", sort=False)` (line 208): the distinct
keys in order of first appearance, with NaN keys dropped (the pandas
default dropna=True); `seen` accumulates the keys already emitted. -/
def dedupFirst (seen : List String) : List String → List String
  | [] => []
  | m :: ms =>
    if m ∈ seen then dedupFirst seen ms else m :: dedupFirst (m :: seen) ms

/-- The group keys of `dff.groupby("Month", sort=False)`. -/
def monthKeys (rows : List Row) : List String :=
  dedupFirst [] (rows.filterMap rowMonth)

/-- app.py line 208: `dff.groupby("Month", sort=False)["Amount"].sum()
.reset_index()` — one `(month, summed amount)` pair per group key. -/
def monthlySum (rows : List Row) : List (String × Int) :=
  (monthKeys rows).map fun m =>
    (m, ((rows.filter fun r => decide (rowMonth r = some m)).map Row.amount).sum)

/-- The ` - YEAR` title tail used by the three titled branches; the same
truthiness as the filter (a `0` year gives the empty tail). -/
def titleTail (selectedYear : Option Int) : String :=
  match selectedYear with
  | none => ""
  | some y => if y = 0 then "" else " - " ++ toString y

/-- The four values returned by the callback: the figure and the three
style dictionaries (modelled as association lists). -/
structure GraphOutput where
  fig : Figure
  mainStyle : List (String × String)
  headerStyle : List (String × String)
  cardStyle : List (String × String)
deriving DecidableEq

/-- `fig.update_layout(...)` (lines 227-235): background colours, font
colour and `transition_duration=500`. -/
def styleFig (f : Figure) (theme : Theme) : Figure :=
  { f with plotBgcolor := theme.background, paperBgcolor := theme.background,
           fontColor := theme.text, transitionDuration := 500 }

/-- `main_style` (lines 238-244). -/
def mainStyleOf (theme : Theme) : List (String × String) :=
  [("fontFamily", "Segoe UI, sans-serif"),
   ("backgroundColor", theme.background),
   ("padding", "30px"),
   ("color", theme.text),
   ("transition", "background-color 0.5s ease, color 0.5s ease")]

/-- `header_style` (lines 245-253). -/
def headerStyleOf (theme : Theme) : List (String × String) :=
  [("textAlign", "center"),
   ("backgroundColor", theme.header),
   ("padding", "20px"),
   ("borderRadius", "10px"),
   ("color", "white"),
   ("boxShadow", theme.shadow),
   ("transition", "background-color 0.5s ease, color 0.5s ease")]

/-- `card_style` (lines 254-263). -/
def cardStyleOf (theme : Theme) : List (String × String) :=
  [("backgroundColor", theme.card),
   ("borderRadius", "12px"),
   ("padding", "25px"),
   ("boxShadow", theme.shadow),
   ("maxWidth", "950px"),
   ("margin", "auto"),
   ("color", theme.text),
   ("transition", "background-color 0.5s ease, color 0.5s ease")]

/-- An unstyled figure as produced by the `px.*` constructors, before
`fig.update_layout` runs. -/
def rawFig (c : FigContent) (title tmpl : String) : Figure :=
  { content := c, title := title, template := tmpl, plotBgcolor := "",
    paperBgcolor := "", fontColor := "", transitionDuration := 0 }

/-- The callback `update_graph` (app.py lines 178-265), in state-passing
form: the second component is the module global `df` after the call.  The
body only ever reads the global (`dff = df.copy()` at line 180; every later
assignment rebinds the local `dff`), so each return path pairs its output
with the unchanged `df`.  The early return at line 207 skips the styling
pass and returns three empty style dictionaries. -/
def update_graph (df : Table) (selectedOption : String)
    (selectedYear : Option Int) (themeChoice : String) :
    GraphOutput × Table :=
  let theme := if themeChoice = "dark" then DARK_THEME else LIGHT_THEME
  let tmpl := if themeChoice = "dark" then "plotly_dark" else "simple_white"
  let dff := filterYear df.rows selectedYear
  if selectedOption = "count_type" then
    ({ fig := styleFig (rawFig (.histogram (dff.map Row.ttype) true)
         ("Count of Transactions by Type" ++ titleTail selectedYear) tmpl) theme,
       mainStyle := mainStyleOf theme, headerStyle := headerStyleOf theme,
       cardStyle := cardStyleOf theme }, df)
  else if selectedOption = "amount_type" then
    ({ fig := styleFig (rawFig (.box (dff.map fun r => (r.ttype, r.amount)))
         ("Transaction Amount by Type" ++ titleTail selectedYear) tmpl) theme,
       mainStyle := mainStyleOf theme, headerStyle := headerStyleOf theme,
       cardStyle := cardStyleOf theme }, df)
  else if selectedOption = "monthly_sum" then
    if df.hasMonth = false then
      ({ fig := rawFig .scatterEmpty "No Month data available" "",
         mainStyle := [], headerStyle := [], cardStyle := [] }, df)
    else
      ({ fig := styleFig (rawFig (.line (monthlySum dff))
           ("Monthly Transaction Amount Sum" ++ titleTail selectedYear) tmpl) theme,
         mainStyle := mainStyleOf theme, headerStyle := headerStyleOf theme,
         cardStyle := cardStyleOf theme }, df)
  else
    ({ fig := styleFig (rawFig (.histogram (dff.map Row.ttype) false)
         "Count of Transactions by Type" tmpl) theme,
       mainStyle := mainStyleOf theme, headerStyle := headerStyleOf theme,
       cardStyle := cardStyleOf theme }, df)

/-- A row dated 2021-02, used in concrete instances below. -/
def rowFeb : Row := { date := some (2021, 2), amount := 1, ttype := "Credit" }

/-- A row dated 2021-01. -/
def rowJan : Row := { date := some (2021, 1), amount := 2, ttype := "Debit" }

/-- A row dated 2021-01 with amount 100. -/
def row2021 : Row := { date := some (2021, 1), amount := 100, ttype := "Credit" }

/-- A row whose date failed to coerce (`NaT`). -/
def rowNoDate : Row := { date := none, amount := 3, ttype := "Credit" }

/-- A one-row table with its Month column present. -/
def tblW : Table := { hasMonth := true, rows := [row2021] }

/-- A table whose Month column is present but whose single row has no
parsed date (so its Month cell is NaN). -/
def tbl5 : Table := { hasMonth := true, rows := [rowNoDate] }

/-- One raw record whose date cell is present but unparsable. -/
def raws3 : List RawRow :=
  [{ date := some "bad", amount := some 7, ttype := some "Credit",
     extra := some "x" }]

/-- Membership in `dedupFirst`: exactly the input elements not already seen. -/
theorem mem_dedupFirst (x : String) (ms : List String) :
    ∀ seen, (x ∈ dedupFirst seen ms ↔ x ∈ ms ∧ x ∉ seen) := by
  induction ms with
  | nil => intro seen; simp [dedupFirst]
  | cons m ms ih =>
    intro seen
    simp only [dedupFirst]
    split
    · next hm =>
      rw [ih seen]
      simp only [List.mem_cons]
      constructor
      · rintro ⟨hx, hns⟩
        exact ⟨Or.inr hx, hns⟩
      · rintro ⟨hx | hx, hns⟩
        · cases hx
          exact absurd hm hns
        · exact ⟨hx, hns⟩
    · next hm =>
      simp only [List.mem_cons, ih (m :: seen)]
      constructor
      · rintro (rfl | ⟨hx, hns⟩)
        · exact ⟨Or.inl rfl, hm⟩
        · exact ⟨Or.inr hx, fun hxs => hns (Or.inr hxs)⟩
      · rintro ⟨rfl | hx, hns⟩
        · exact Or.inl rfl
        · by_cases hxm : x = m
          · exact Or.inl hxm
          · refine Or.inr ⟨hx, fun hmem => ?_⟩
            rcases hmem with h | h
            · exact hxm h
            · exact hns h

/-- `dedupFirst` emits no duplicates. -/
theorem dedupFirst_nodup (ms : List String) :
    ∀ seen, (dedupFirst seen ms).Nodup := by
  induction ms with
  | nil => intro seen; simp [dedupFirst]
  | cons m ms ih =>
    intro seen
    simp only [dedupFirst]
    split
    · exact ih seen
    · refine List.nodup_cons.mpr ⟨fun hmem => ?_, ih (m :: seen)⟩
      rcases (mem_dedupFirst m ms (m :: seen)).mp hmem with ⟨_, hns⟩
      exact hns (List.mem_cons_self m seen)

/-- `dedupFirst` is an order-preserving subsequence of its input. -/
theorem dedupFirst_sublist (ms : List String) :
    ∀ seen, (dedupFirst seen ms).Sublist ms := by
  induction ms with
  | nil => intro seen; simp [dedupFirst]
  | cons m ms ih =>
    intro seen
    simp only [dedupFirst]
    split
    · exact (ih seen).trans (List.sublist_cons_self m ms)
    · exact (ih (m :: seen)).cons₂ m

/-- The key column of the monthly aggregate is exactly `monthKeys`. -/
theorem monthlySum_fst (rows : List Row) :
    (monthlySum rows).map Prod.fst = monthKeys rows := by
  simp only [monthlySum, List.map_map, Function.comp_def]
  simp

/-- Dropping the NaN-month rows leaves the Month value stream unchanged. -/
theorem filterMap_month_of_filter (rows : List Row) :
    (rows.filter fun r => (rowMonth r).isSome).filterMap rowMonth
      = rows.filterMap rowMonth := by
  induction rows with
  | nil => rfl
  | cons r rs ih =>
    cases h : rowMonth r with
    | none => simp [List.filter_cons, List.filterMap_cons, h, ih]
    | some m => simp [List.filter_cons, List.filterMap_cons, h, ih]

/-- Dropping the NaN-month rows does not change any single month group. -/
theorem filter_month_of_filter (m : String) (rows : List Row) :
    ((rows.filter fun r => (rowMonth r).isSome).filter
        fun r => decide (rowMonth r = some m))
      = rows.filter fun r => decide (rowMonth r = some m) := by
  induction rows with
  | nil => rfl
  | cons r rs ih =>
    cases h : rowMonth r with
    | none => simp [List.filter_cons, h, ih]
    | some m2 =>
      by_cases hm : m2 = m
      · subst hm; simp [List.filter_cons, h, ih]
      · simp [List.filter_cons, h, ih, hm]

/-- Rows whose Month cell is NaN contribute nothing to the monthly view. -/
theorem monthlySum_filter_isSome (rows : List Row) :
    monthlySum rows
      = monthlySum (rows.filter fun r => (rowMonth r).isSome) := by
  unfold monthlySum monthKeys
  rw [filterMap_month_of_filter]
  refine List.map_congr_left fun m hm => ?_
  rw [filter_month_of_filter]

/-- C1 counterexample: on a row set whose February row precedes its January
row, the monthly-trend view emits February before January, so the output is
not ordered ascending by the calendar ordinal of the month. -/
theorem C1_counterexample :
    ((monthlySum (filterYear [rowFeb, rowJan] none)).map
        (fun p => monthOrd p.1)) = [2, 1] ∧
    ¬ List.Chain' (fun a b : Nat => a ≤ b) [2, 1] := by
  refine ⟨by decide, fun hchain => ?_⟩
  rw [List.chain'_cons] at hchain
  exact absurd hchain.1 (by decide)

/-- C1 (amended): for every row set and year filter, the monthly-trend view
(selector monthly_sum) groups rows by month name and sums the amount per
month; each month label appears exactly once, labelled by month name, and
the output order is a subsequence of the order in which months appear in
the filtered rows (first-appearance order), not ascending calendar
ordinal. -/
theorem C1_monthlyTrend (df : Table) (y : Option Int) (th : String)
    (hm : df.hasMonth = true) :
    (update_graph df "monthly_sum" y th).1.fig.content
      = FigContent.line (monthlySum (filterYear df.rows y)) ∧
    (∀ p, p ∈ monthlySum (filterYear df.rows y) →
      p.2 = (((filterYear df.rows y).filter
          fun r => decide (rowMonth r = some p.1)).map Row.amount).sum) ∧
    ((monthlySum (filterYear df.rows y)).map Prod.fst).Nodup ∧
    ((monthlySum (filterYear df.rows y)).map Prod.fst).Sublist
      ((filterYear df.rows y).filterMap rowMonth) ∧
    (∀ m, m ∈ (filterYear df.rows y).filterMap rowMonth →
      m ∈ (monthlySum (filterYear df.rows y)).map Prod.fst) := by
  refine ⟨?_, ?_, ?_, ?_, ?_⟩
  · simp [update_graph, hm, styleFig, rawFig]
  · intro p hp
    simp only [monthlySum] at hp
    rcases List.mem_map.mp hp with ⟨m, hmk, rfl⟩
    rfl
  · rw [monthlySum_fst]
    exact dedupFirst_nodup _ []
  · rw [monthlySum_fst]
    exact dedupFirst_sublist _ []
  · intro m hmem
    rw [monthlySum_fst]
    exact (mem_dedupFirst m _ []).mpr ⟨hmem, by simp⟩

/-- C1 witness: the amended theorem applied to the concrete one-row table. -/
theorem C1_monthlyTrend_witness :
    (update_graph tblW "monthly_sum" none "light").1.fig.content
      = FigContent.line (monthlySum (filterYear tblW.rows none)) :=
  (C1_monthlyTrend tblW none "light" (by decide)).1

/-- C2 counterexample: with filter value 0 (falsy in Python), the filter is
skipped entirely, so a row whose derived year is 2021 — not 0 — is kept. -/
theorem C2_counterexample :
    filterYear [row2021] (some 0) = [row2021] ∧
    ¬ rowYear row2021 = some 0 := by
  decide

/-- C2 (amended): for every table and every nonzero year filter value y,
filtering keeps exactly the rows whose derived year equals y (rows with an
absent year excluded), and for every filter value at all — including 0, for
which the Python truthiness test skips the filter — the result is an
order-preserving subsequence of the table with no duplication and no
fabrication. -/
theorem C2_filterByYear (rows : List Row) (y : Int) (hy : y ≠ 0) :
    filterYear rows (some y)
      = rows.filter (fun r => decide (rowYear r = some y)) ∧
    ∀ sy : Option Int, (filterYear rows sy).Sublist rows := by
  constructor
  · simp [filterYear, hy]
  · intro sy
    cases sy with
    | none => exact List.Sublist.refl rows
    | some y2 =>
      simp only [filterYear]
      split
      · exact List.Sublist.refl rows
      · exact List.filter_sublist rows

/-- C2 witness: the amended theorem applied at year 2021. -/
theorem C2_filterByYear_witness :
    filterYear [row2021] (some 2021)
      = List.filter (fun r => decide (rowYear r = some 2021)) [row2021] :=
  (C2_filterByYear [row2021] 2021 (by decide)).1

/-- C3 (confirmed): a record whose date cell is present but unparsable
survives the load — its calendar-derived fields become absent, but it stays
in the base table and is still counted by the count-by-type and
amount-distribution views. -/
theorem C3_badDateKept (raws : List RawRow) (d : String) (a : Int)
    (t e : String)
    (hmem : ({ date := some d, amount := some a, ttype := some t,
               extra := some e } : RawRow) ∈ raws)
    (hbad : parseDate d = none) :
    ({ date := none, amount := a, ttype := t } : Row) ∈ loadBase raws ∧
    t ∈ figXs (update_graph ⟨true, loadBase raws⟩
        "count_type" none "light").1.fig.content ∧
    (t, a) ∈ figPairs (update_graph ⟨true, loadBase raws⟩
        "amount_type" none "light").1.fig.content := by
  have hrow : ({ date := none, amount := a, ttype := t } : Row)
      ∈ loadBase raws := by
    have hf : (⟨some d, some a, some t, some e⟩ : RawRow)
        ∈ raws.filter rawComplete :=
      List.mem_filter.mpr ⟨hmem, rfl⟩
    have hl : loadRow ⟨some d, some a, some t, some e⟩
        = ({ date := none, amount := a, ttype := t } : Row) := by
      simp [loadRow, hbad]
    exact hl ▸ List.mem_map_of_mem loadRow hf
  refine ⟨hrow, ?_, ?_⟩
  · simp only [update_graph]
    simp [figXs, filterYear, styleFig, rawFig]
    exact ⟨_, hrow, rfl⟩
  · simp only [update_graph]
    simp [figPairs, filterYear, styleFig, rawFig]
    exact ⟨_, hrow, rfl, rfl⟩

/-- C3 witness: the theorem applied to the concrete one-record CSV whose
date cell reads "bad". -/
theorem C3_badDateKept_witness :
    ({ date := none, amount := 7, ttype := "Credit" } : Row)
      ∈ loadBase raws3 ∧
    "Credit" ∈ figXs (update_graph ⟨true, loadBase raws3⟩
        "count_type" none "light").1.fig.content ∧
    ("Credit", 7) ∈ figPairs (update_graph ⟨true, loadBase raws3⟩
        "amount_type" none "light").1.fig.content :=
  C3_badDateKept raws3 "bad" 7 "Credit" "x" (by decide) (by decide)

/-- C4 (confirmed): every selector outside the declared domain (such as
the probe value xyz) falls into the final else branch, which builds the
default count-by-type histogram over the filtered rows; no fault is
raised (the function is total) and the base table is returned unchanged. -/
theorem C4_unknownSelector (df : Table) (sel : String) (y : Option Int)
    (th : String) (h1 : sel ≠ "count_type") (h2 : sel ≠ "amount_type")
    (h3 : sel ≠ "monthly_sum") :
    (update_graph df sel y th).1.fig.content
      = FigContent.histogram ((filterYear df.rows y).map Row.ttype) false ∧
    (update_graph df sel y th).2 = df := by
  simp [update_graph, h1, h2, h3, styleFig, rawFig]

/-- C4 witness: the theorem applied to the probe selector xyz. -/
theorem C4_unknownSelector_witness :
    (update_graph tblW "xyz" none "light").1.fig.content
      = FigContent.histogram ((filterYear tblW.rows none).map Row.ttype)
          false ∧
    (update_graph tblW "xyz" none "light").2 = tblW :=
  C4_unknownSelector tblW "xyz" none "light" (by decide) (by decide)
    (by decide)

/-- C5 counterexample: on a table whose Month column exists but whose only
row has an absent month, the group set is empty, yet the engine returns a
normal line chart with zero points — not the no-data scatter result. -/
theorem C5_counterexample :
    (update_graph tbl5 "monthly_sum" none "light").1.fig.content
      = FigContent.line [] ∧
    FigContent.line [] ≠ FigContent.scatterEmpty := by
  decide

/-- C5 (amended): rows with an absent month are excluded from the
monthly-trend grouping (confirmed), but the explicit no-data result is
produced exactly when the Month column itself is absent from the table;
when the column exists and the resulting group set is empty the engine
presents an ordinary line chart over zero groups. -/
theorem C5_absentMonth (df : Table) (y : Option Int) (th : String) :
    monthlySum (filterYear df.rows y)
      = monthlySum ((filterYear df.rows y).filter
          fun r => (rowMonth r).isSome) ∧
    (update_graph df "monthly_sum" y th).1.fig.content
      = (if df.hasMonth then
           FigContent.line (monthlySum (filterYear df.rows y))
         else FigContent.scatterEmpty) := by
  constructor
  · exact monthlySum_filter_isSome _
  · cases hm : df.hasMonth with
    | true => simp [update_graph, hm, styleFig, rawFig]
    | false => simp [update_graph, hm, rawFig]

/-- C6 counterexample: year 0 is absent from the one-row dataset, yet
filtering to it yields the whole table rather than zero rows, because the
Python truthiness test treats 0 like the no-filter sentinel. -/
theorem C6_counterexample :
    ([row2021].all fun r => decide (¬ rowYear r = some 0)) = true ∧
    ¬ filterYear [row2021] (some 0) = [] := by
  decide

/-- C6 (amended): for every nonzero year y that matches no row of the
table, filtering yields zero rows and each of the three declared views
still produces its ordinary result bundle over those zero rows — an empty
histogram, an empty box plot, and an empty line chart (or, were the Month
column missing, the no-data result); nothing fails. -/
theorem C6_absentYear (df : Table) (y : Int) (th : String) (hy : y ≠ 0)
    (habs : (df.rows.all fun r => decide (¬ rowYear r = some y)) = true) :
    filterYear df.rows (some y) = [] ∧
    (update_graph df "count_type" (some y) th).1.fig.content
      = FigContent.histogram [] true ∧
    (update_graph df "amount_type" (some y) th).1.fig.content
      = FigContent.box [] ∧
    (update_graph df "monthly_sum" (some y) th).1.fig.content
      = (if df.hasMonth then FigContent.line [] else
          FigContent.scatterEmpty) := by
  have hempty : filterYear df.rows (some y) = [] := by
    simp only [filterYear, if_neg hy]
    rw [List.filter_eq_nil_iff]
    intro r hr
    have hall := List.all_eq_true.mp habs r hr
    simpa using hall
  refine ⟨hempty, ?_, ?_, ?_⟩
  · simp [update_graph, hempty, styleFig, rawFig]
  · simp [update_graph, hempty, styleFig, rawFig]
  · cases hm : df.hasMonth with
    | true => simp [update_graph, hm, hempty, monthlySum, monthKeys,
        dedupFirst, styleFig, rawFig]
    | false => simp [update_graph, hm, rawFig]

/-- C6 witness: the amended theorem applied at year 1999, absent from the
concrete one-row 2021 table. -/
theorem C6_absentYear_witness :
    filterYear tblW.rows (some 1999) = [] ∧
    (update_graph tblW "count_type" (some 1999) "light").1.fig.content
      = FigContent.histogram [] true ∧
    (update_graph tblW "amount_type" (some 1999) "light").1.fig.content
      = FigContent.box [] ∧
    (update_graph tblW "monthly_sum" (some 1999) "light").1.fig.content
      = (if tblW.hasMonth then FigContent.line [] else
          FigContent.scatterEmpty) :=
  C6_absentYear tblW 1999 "light" (by decide) (by decide)

/-- C7 (confirmed): an absent year filter (the dropdown cleared to its
All Years placeholder, delivered as None) leaves the table untouched:
same row set, same order. -/
theorem C7_noFilterIdentity (rows : List Row) :
    filterYear rows none = rows := rfl

/-- C8 (confirmed): the callback is frame-preserving on the base table —
for every view selector, year filter and theme toggle, the module global
df after the call equals the table before it (the body copies the frame
and only ever rebinds the local copy). -/
theorem C8_baseTableImmutable (df : Table) (sel : String) (y : Option Int)
    (th : String) : (update_graph df sel y th).2 = df := by
  by_cases h1 : sel = "count_type" <;>
    by_cases h2 : sel = "amount_type" <;>
      by_cases h3 : sel = "monthly_sum" <;>
        by_cases h4 : df.hasMonth = false <;>
          simp [update_graph, h1, h2, h3, h4]

/-- C9 counterexample: with every toggle in its off position (light theme;
the code has no animation flag at all), the transition duration is the
constant 500, not 0 — so no input maps the display hint to a zero
duration. -/
theorem C9_counterexample :
    (update_graph tbl5 "count_type" none "light").1.fig.transitionDuration
      = 500 ∧
    (500 : Nat) ≠ 0 := by
  decide

/-- C9 (amended): the transition-duration display hint is the constant 500
(nonzero) for every selector, year filter and theme choice whenever the
Month column exists (always true in a successfully started app); there is
no animation flag and no input yields a zero duration on a styled
figure. -/
theorem C9_constantDuration (df : Table) (sel : String) (y : Option Int)
    (th : String) (hm : df.hasMonth = true) :
    (update_graph df sel y th).1.fig.transitionDuration = 500 := by
  by_cases h1 : sel = "count_type" <;>
    by_cases h2 : sel = "amount_type" <;>
      by_cases h3 : sel = "monthly_sum" <;>
        simp [update_graph, h1, h2, h3, hm, styleFig, rawFig]

/-- C9 witness: the amended theorem at a concrete request. -/
theorem C9_constantDuration_witness :
    (update_graph tblW "monthly_sum" none "dark").1.fig.transitionDuration
      = 500 :=
  C9_constantDuration tblW "monthly_sum" none "dark" (by decide)

/-- C10 (confirmed): dropna runs before the date column is parsed — the
load is unchanged by pre-dropping the incomplete records, every surviving
record is a complete one, and a record with a missing cell in any column
(here: a missing date, with every other cell present, including the
otherwise-ignored extra column) fails the dropna predicate and is removed
outright rather than retained with absent calendar fields. -/
theorem C10_dropnaFirst (raws : List RawRow) (a : Int) (t e : String) :
    loadBase raws = loadBase (raws.filter rawComplete) ∧
    (loadBase raws).length = (raws.filter rawComplete).length ∧
    rawComplete ⟨none, some a, some t, some e⟩ = false := by
  refine ⟨?_, ?_, rfl⟩
  · unfold loadBase
    congr 1
    rw [List.filter_filter]
    simp
  · unfold loadBase
    rw [List.length_map]

end BankDash
